import Mathlib

/-!
# CryptoCoin / CryptCenter: the gift-code claim handler

A shallow embedding of `src/CryptCenter/server.js` (the `POST /api/claim` handler) and of
the record shape written by `src/CryptCenter/manage_gifts.js`.

* The ledger file `gifts.json` is a `FileState`; the handler's external calls
  (`ethers.isAddress`, `wallet.getAddress`, `contract.safeTransferFrom`, `new Date()`,
  `fs.writeFileSync`, `tx.wait`) are parameters whose outcomes are given by an `Env`.
* `claim` is one run of the handler from request to response with nothing else touching the
  file; `step` is the same handler cut at its four `await`-delimited segments, used to
  interleave several requests.
* Values thrown by the external calls are `JsVal`s, since the `catch` block inspects them
  with dynamically typed property reads.
-/

set_option autoImplicit false

namespace CryptCenter

/-! ## JavaScript values inspected by the catch block -/

/-- A JavaScript value, as far as the handler's `catch` block can tell values apart.
Objects are association lists from property names to values. -/
inductive JsVal where
  | undefined
  | null
  | bool (b : Bool)
  | number (n : Int)
  | string (s : String)
  | array (items : List JsVal)
  | object (fields : List (String × JsVal))

namespace JsVal

/-- JavaScript truthiness (`if (v)`, `v && ...`). -/
def truthy : JsVal → Bool
  | undefined => false
  | null => false
  | bool b => b
  | number n => n != 0
  | string s => s != ""
  | array _ => true
  | object _ => true

/-- The property read `v.name` for the names the handler reads (`message`, `info`, `error`).
`none` is the `TypeError` raised when `v` is `undefined` or `null`; on primitives and arrays
these names are not defined, so the read gives `undefined`. -/
def prop (v : JsVal) (name : String) : Option JsVal :=
  match v with
  | undefined => none
  | null => none
  | object fields => some ((fields.lookup name).getD undefined)
  | _ => some undefined

/-- Does `pat` occur at the head of the character list? -/
def startsWithChars : List Char → List Char → Bool
  | _, [] => true
  | [], _ :: _ => false
  | c :: cs, p :: ps => c == p && startsWithChars cs ps

/-- Does `pat` occur somewhere in the character list? -/
def includesChars : List Char → List Char → Bool
  | [], pat => pat.isEmpty
  | c :: cs, pat => startsWithChars (c :: cs) pat || includesChars cs pat

/-- The method call `v.includes(pat)`. On a string it is `String.prototype.includes`, on an
array `Array.prototype.includes`; on anything else it raises a `TypeError` (`none`): reading
`includes` off `undefined`/`null` fails, and on other values it is not a function. -/
def includes (v : JsVal) (pat : String) : Option Bool :=
  match v with
  | string s => some (includesChars s.data pat.data)
  | array items =>
      some (items.any fun item =>
        match item with
        | string s => s == pat
        | _ => false)
  | _ => none

end JsVal

/-! ## Ledger and HTTP data -/

/-- One record of `gifts.json`, with the fields written by `manage_gifts.js`
(`tokenId`, `code`, `used`, `txHash`, `usedBy`) and by the handler (`usedAt`).
`null` and an absent field are both `none`. -/
structure Gift where
  tokenId : Nat
  code : String
  used : Bool
  txHash : Option String
  usedBy : Option String
  usedAt : Option String
deriving DecidableEq, Repr

/-- The state of `DATA_FILE`: not there, there but not parseable as JSON, or holding the JSON
array of records. -/
inductive FileState where
  | missing
  | corrupt
  | content (gifts : List Gift)
deriving DecidableEq, Repr

/-- The request body `{ address, code }`; `none` is an absent field. -/
structure Request where
  address : Option String
  code : Option String
deriving DecidableEq, Repr

/-- The JSON body of a response: `{ error: msg }` or `{ success: true, txHash }`. -/
inductive Body where
  | error (msg : String)
  | success (txHash : String)
deriving DecidableEq, Repr

/-- An HTTP response: status code and JSON body. -/
structure Response where
  status : Nat
  body : Body
deriving DecidableEq, Repr

/-- The arguments of a call `contract.safeTransferFrom(sender, recipient, tokenId)`. -/
structure TransferCall where
  sender : String
  recipient : String
  tokenId : Nat
deriving DecidableEq, Repr

/-- How a call of `fs.writeFileSync(DATA_FILE, ...)` ends: it returns, or it throws `error`.
A failed write either never touched the file or left it cut short (`truncated`), which is no
longer parseable JSON. -/
inductive WriteResult where
  | ok
  | failed (error : JsVal) (truncated : Bool)

/-- The outcomes of the external calls of one request. -/
structure Env where
  /-- Result of `await wallet.getAddress()`. -/
  getAddress : Except JsVal String
  /-- Result of `await contract.safeTransferFrom(sender, recipient, tokenId)`: `tx.hash` of
  the submitted transaction, or the thrown value. -/
  safeTransferFrom : String → String → Nat → Except JsVal String
  /-- Result of `new Date().toISOString()` at the moment of the update. -/
  now : String
  /-- Result of `fs.writeFileSync`. -/
  writeFile : WriteResult
  /-- Result of `await tx.wait()`. -/
  wait : Except JsVal Unit

/-! ## Response messages (string literals of `server.js`) -/

def msgInvalidAddress : String := "無効なアドレスです"
def msgNoCode : String := "ギフトコードがありません"
def msgLoadFailed : String := "サーバーエラー: データ読み込み失敗"
def msgUnknownCode : String := "無効なギフトコードです"
def msgAlreadyUsed : String := "このギフトコードは既に使用済みです"
def msgTransferFailed : String := "転送に失敗しました"
def msgTokenMissing : String := "エラー: 指定IDのトークンが存在しません(Mint忘れ)"
def msgNotOwner : String := "エラー: サーバーがそのトークンを持っていません"

def patNonexistentToken : String := "owner query for nonexistent token"
def patNotOwnerOrApproved : String := "ERC721: caller is not token owner or approved"

/-- Response `InvalidRequest` for the address (lines 42-44). -/
def respInvalidAddress : Response := ⟨400, .error msgInvalidAddress⟩
/-- Response `InvalidRequest` for the code (lines 45-47). -/
def respNoCode : Response := ⟨400, .error msgNoCode⟩
/-- Response for a ledger that cannot be read (line 56). -/
def respLoadFailed : Response := ⟨500, .error msgLoadFailed⟩
/-- Response `UnknownCode` (line 63). -/
def respUnknownCode : Response := ⟨404, .error msgUnknownCode⟩
/-- Response `AlreadyClaimed` (line 70). -/
def respAlreadyClaimed : Response := ⟨400, .error msgAlreadyUsed⟩
/-- Response of the success path, `res.json({ success: true, txHash })` (line 99). -/
def respSuccess (txHash : String) : Response := ⟨200, .success txHash⟩

/-! ## The handler -/

/-- The catch block's choice of `errorMessage` (lines 106-113). `none` means that evaluating
the conditions raised a `TypeError` inside the catch block itself. -/
def errorMessageOf (error : JsVal) : Option String :=
  match error.prop "message" with
  | none => none
  | some m =>
    match (if m.truthy then m.includes patNonexistentToken else some false) with
    | none => none
    | some true => some msgTokenMissing
    | some false =>
      match error.prop "info" with
      | none => none
      | some info =>
        if !info.truthy then some msgTransferFailed
        else
          match info.prop "error" with
          | none => none
          | some e =>
            if !e.truthy then some msgTransferFailed
            else
              match e.prop "message" with
              | none => none
              | some m2 =>
                match m2.includes patNotOwnerOrApproved with
                | none => none
                | some true => some msgNotOwner
                | some false => some msgTransferFailed

/-- The whole catch block (lines 102-116): the response it sends, or `none` when it throws
before `res.status(500).json(...)`, so that the request gets no response. -/
def catchResponse (error : JsVal) : Option Response :=
  (errorMessageOf error).map fun msg => ⟨500, .error msg⟩

/-- `arr.findIndex(p)`: index of the first element satisfying `p`; `none` stands for `-1`. -/
def findIndex {α : Type} (p : α → Bool) : List α → Option Nat
  | [] => none
  | x :: xs => if p x then some 0 else (findIndex p xs).map (· + 1)

/-- Lines 50-57: `gifts` after the `try`, or `none` when reading or parsing threw. -/
def load : FileState → Option (List Gift)
  | .missing => some []
  | .corrupt => none
  | .content gifts => some gifts

/-- Lines 89-92: the in-place update of the record at `giftIndex`. -/
def markUsed (gifts : List Gift) (giftIndex : Nat) (address txHash now : String) : List Gift :=
  gifts.modify (fun g =>
    { g with used := true, usedBy := some address, txHash := some txHash, usedAt := some now })
    giftIndex

/-- The file after `fs.writeFileSync(DATA_FILE, JSON.stringify(gifts, null, 2))`. -/
def fileAfterWrite (file : FileState) (gifts : List Gift) : WriteResult → FileState
  | .ok => .content gifts
  | .failed _ truncated => if truncated then .corrupt else file

/-- What one run of the handler did: the response sent (`none` when the handler ended by
throwing without responding), each external call it made together with that call's result,
and the ledger file afterwards. -/
structure Outcome where
  response : Option Response
  getAddress : Option (Except JsVal String)
  transfer : Option (TransferCall × Except JsVal String)
  write : Option (List Gift × WriteResult)
  wait : Option (Except JsVal Unit)
  file : FileState

/-- An outcome in which the handler made no external call and left the file alone. -/
def Outcome.reply (file : FileState) (response : Option Response) : Outcome :=
  { response := response, getAddress := none, transfer := none, write := none, wait := none,
    file := file }

/-- The `try`/`catch` of lines 77-116, entered with the ledger read, the index of the record
and the recipient address. -/
def transferAndRecord (env : Env) (file : FileState) (gifts : List Gift) (giftIndex : Nat)
    (tokenId : Nat) (address : String) : Outcome :=
  match env.getAddress with
  | .error e =>
    { Outcome.reply file (catchResponse e) with getAddress := some (.error e) }
  | .ok serverAddress =>
    let call : TransferCall := ⟨serverAddress, address, tokenId⟩
    match env.safeTransferFrom serverAddress address tokenId with
    | .error e =>
      { Outcome.reply file (catchResponse e) with
        getAddress := some (.ok serverAddress), transfer := some (call, .error e) }
    | .ok txHash =>
      let updated := markUsed gifts giftIndex address txHash env.now
      match env.writeFile with
      | .failed e truncated =>
        { response := catchResponse e
          getAddress := some (.ok serverAddress)
          transfer := some (call, .ok txHash)
          write := some (updated, .failed e truncated)
          wait := none
          file := fileAfterWrite file updated (.failed e truncated) }
      | .ok =>
        { response :=
            match env.wait with
            | .error e => catchResponse e
            | .ok _ => some (respSuccess txHash)
          getAddress := some (.ok serverAddress)
          transfer := some (call, .ok txHash)
          write := some (updated, .ok)
          wait := some env.wait
          file := .content updated }

/-- The handler of `POST /api/claim` (lines 38-117), run from request to response with no
other request in between. `isAddress` is `ethers.isAddress`. -/
def claim (isAddress : String → Bool) (env : Env) (file : FileState) (req : Request) :
    Outcome :=
  match req.address with
  | none => Outcome.reply file (some respInvalidAddress)
  | some address =>
    if address = "" || !isAddress address then Outcome.reply file (some respInvalidAddress)
    else
      match req.code with
      | none => Outcome.reply file (some respNoCode)
      | some code =>
        if code = "" then Outcome.reply file (some respNoCode)
        else
          match load file with
          | none => Outcome.reply file (some respLoadFailed)
          | some gifts =>
            match findIndex (fun g => g.code == code) gifts with
            | none => Outcome.reply file (some respUnknownCode)
            | some giftIndex =>
              match gifts[giftIndex]? with
              | none => Outcome.reply file none
              | some targetGift =>
                if targetGift.used then Outcome.reply file (some respAlreadyClaimed)
                else transferAndRecord env file gifts giftIndex targetGift.tokenId address

/-! ## Requests handled one after another -/

/-- Handle the requests in order, each to completion before the next starts, every request
with its own external outcomes; the ledger file is changed by the handler only. The result
pairs every request with what its run did. -/
def serve (isAddress : String → Bool) :
    FileState → List (Env × Request) → List (Request × Outcome)
  | _, [] => []
  | file, (env, req) :: rest =>
    let out := claim isAddress env file req
    (req, out) :: serve isAddress out.file rest

/-- The response sent is a success response, `{ success: true, txHash }`. -/
def isSuccess : Option Response → Bool
  | some ⟨_, .success _⟩ => true
  | _ => false

/-- The request got a success response carrying a transfer handle for `code`. -/
def succeededFor (code : String) (entry : Request × Outcome) : Bool :=
  entry.1.code == some code && isSuccess entry.2.response

/-! ## The handler cut at its `await`s

The handler is an `async` function: it runs without interruption up to an `await`, and while
it is suspended there other requests' handlers may run. -/

/-- Where the handler of one request stands. The local variables it holds across an `await`
(`gifts`, `giftIndex`, `tokenId`, `address`, `tx`) are carried along. -/
inductive Task where
  /-- The request has arrived; nothing has run yet. -/
  | start (req : Request)
  /-- Suspended at `await wallet.getAddress()` (line 80). -/
  | awaitGetAddress (gifts : List Gift) (giftIndex tokenId : Nat) (address : String)
  /-- Suspended at `await contract.safeTransferFrom(...)` (line 83). -/
  | awaitTransfer (gifts : List Gift) (giftIndex : Nat) (call : TransferCall)
  /-- Suspended at `await tx.wait()` (line 97). -/
  | awaitWait (txHash : String)
  /-- The handler has returned, having sent `response` (or none). -/
  | finished (response : Option Response)

/-- The effect of running one segment: the file, the new position, and the call of
`safeTransferFrom` made in this segment, if any. -/
structure Segment where
  file : FileState
  task : Task
  transfer : Option TransferCall

/-- Run the handler from its current position to its next `await` (or to its end). -/
def step (isAddress : String → Bool) (env : Env) (file : FileState) : Task → Segment
  | .start req =>
    match req.address with
    | none => ⟨file, .finished (some respInvalidAddress), none⟩
    | some address =>
      if address = "" || !isAddress address then
        ⟨file, .finished (some respInvalidAddress), none⟩
      else
        match req.code with
        | none => ⟨file, .finished (some respNoCode), none⟩
        | some code =>
          if code = "" then ⟨file, .finished (some respNoCode), none⟩
          else
            match load file with
            | none => ⟨file, .finished (some respLoadFailed), none⟩
            | some gifts =>
              match findIndex (fun g => g.code == code) gifts with
              | none => ⟨file, .finished (some respUnknownCode), none⟩
              | some giftIndex =>
                match gifts[giftIndex]? with
                | none => ⟨file, .finished none, none⟩
                | some targetGift =>
                  if targetGift.used then ⟨file, .finished (some respAlreadyClaimed), none⟩
                  else ⟨file, .awaitGetAddress gifts giftIndex targetGift.tokenId address, none⟩
  | .awaitGetAddress gifts giftIndex tokenId address =>
    match env.getAddress with
    | .error e => ⟨file, .finished (catchResponse e), none⟩
    | .ok serverAddress =>
      let call : TransferCall := ⟨serverAddress, address, tokenId⟩
      ⟨file, .awaitTransfer gifts giftIndex call, some call⟩
  | .awaitTransfer gifts giftIndex call =>
    match env.safeTransferFrom call.sender call.recipient call.tokenId with
    | .error e => ⟨file, .finished (catchResponse e), none⟩
    | .ok txHash =>
      let updated := markUsed gifts giftIndex call.recipient txHash env.now
      match env.writeFile with
      | .failed e truncated =>
        ⟨fileAfterWrite file updated (.failed e truncated), .finished (catchResponse e), none⟩
      | .ok => ⟨.content updated, .awaitWait txHash, none⟩
  | .awaitWait txHash =>
    match env.wait with
    | .error e => ⟨file, .finished (catchResponse e), none⟩
    | .ok _ => ⟨file, .finished (some (respSuccess txHash)), none⟩
  | .finished response => ⟨file, .finished response, none⟩

/-- Several requests in flight over one ledger file. `transfers` logs, in order, which
request called `safeTransferFrom` with which arguments. -/
structure Server where
  file : FileState
  tasks : List (Env × Task)
  transfers : List (Nat × TransferCall)

/-- Run the next segment of request number `k`. -/
def Server.advance (isAddress : String → Bool) (s : Server) (k : Nat) : Server :=
  match s.tasks[k]? with
  | none => s
  | some (env, task) =>
    let seg := step isAddress env s.file task
    { file := seg.file
      tasks := s.tasks.set k (env, seg.task)
      transfers :=
        match seg.transfer with
        | none => s.transfers
        | some call => s.transfers ++ [(k, call)] }

/-- Run segments in the order the schedule gives. -/
def Server.run (isAddress : String → Bool) (s : Server) (schedule : List Nat) : Server :=
  schedule.foldl (Server.advance isAddress) s

/-- The requests arrive: all handlers at their start, nothing submitted yet. -/
def Server.arrive (file : FileState) (requests : List (Env × Request)) : Server :=
  { file := file, tasks := requests.map fun r => (r.1, Task.start r.2), transfers := [] }

/-- The responses of the requests that have finished (`none` for one still in flight). -/
def Server.responses (s : Server) : List (Option (Option Response)) :=
  s.tasks.map fun t =>
    match t.2 with
    | .finished response => some response
    | _ => none

/-- The final ledger file after handling the requests one after another. -/
def serveFile (isAddress : String → Bool) : FileState → List (Env × Request) → FileState
  | file, [] => file
  | file, (env, req) :: rest => serveFile isAddress (claim isAddress env file req).file rest

/-! ## Predicates used in the statements -/

/-- The address passes the handler's input check (line 42). -/
def ValidAddress (isAddress : String → Bool) (address : String) : Prop :=
  address ≠ "" ∧ isAddress address = true

/-- The record `g`, at index `i`, is the first record of the ledger whose code is `code`. -/
def FirstWithCode (gifts : List Gift) (code : String) (i : Nat) (g : Gift) : Prop :=
  gifts[i]? = some g ∧ g.code = code ∧
    ∀ (j : Nat) (r : Gift), j < i → gifts[j]? = some r → r.code ≠ code

/-- The record `g` as the claim's postcondition describes it after a claim by `address` with
transfer handle `txHash` at time `now`: `tokenId` and `code` kept, `used = true`, `usedBy`,
`txHash` and `usedAt` set. -/
def claimedRecord (g : Gift) (address txHash now : String) : Gift :=
  { tokenId := g.tokenId, code := g.code, used := true, txHash := some txHash,
    usedBy := some address, usedAt := some now }

/-- The ledger `after` has the records of `before` in the same number and order with the same
`tokenId` and `code`, every record used in `before` is untouched, and `after` differs from
`before` at most in one record that was unused and is now used. -/
def LedgerStep (before after : List Gift) : Prop :=
  after.length = before.length ∧
  (∀ (j : Nat) (g : Gift), before[j]? = some g →
    ∃ r, after[j]? = some r ∧ r.tokenId = g.tokenId ∧ r.code = g.code ∧ (g.used = true → r = g)) ∧
  (after = before ∨
    ∃ (i : Nat) (g r : Gift), before[i]? = some g ∧ g.used = false ∧ after[i]? = some r ∧
      r.used = true ∧ ∀ j : Nat, j ≠ i → after[j]? = before[j]?)

/-- The code can no longer be redeemed from this file: the file is unreadable, or the first
record carrying the code is used. -/
def Spent (code : String) (file : FileState) : Prop :=
  file = .corrupt ∨
    ∃ gifts i g, file = .content gifts ∧ FirstWithCode gifts code i g ∧ g.used = true

/-! ## Concrete data used in the examples -/

/-- A stand-in for `ethers.isAddress`: `0x` followed by 40 characters. -/
def looksLikeAddress (s : String) : Bool :=
  s.data.take 2 == ['0', 'x'] && s.data.length == 42

def alice : String := "0x00000000000000000000000000000000000000a1"
def bob : String := "0x00000000000000000000000000000000000000b2"
def custodian : String := "0x00000000000000000000000000000000000000c0"

/-- A record as `manage_gifts.js` pushes it. -/
def issued (tokenId : Nat) (code : String) : Gift :=
  { tokenId := tokenId, code := code, used := false, txHash := none, usedBy := none,
    usedAt := none }

/-- External outcomes in which every call succeeds and the transfer gets hash `txHash`. -/
def envOk (txHash : String) : Env :=
  { getAddress := .ok custodian
    safeTransferFrom := fun _ _ _ => .ok txHash
    now := "2024-01-01T00:00:00.000Z"
    writeFile := .ok
    wait := .ok () }

/-- An error value as a failed `tx.wait()` throws it: a message and nothing else the catch
block looks at. -/
def revertError : JsVal := .object [("message", .string "transaction execution reverted")]

/-- External outcomes in which the transfer is submitted with hash `txHash` and the ledger
is written, but `tx.wait()` throws. -/
def envConfirmFails (txHash : String) : Env :=
  { envOk txHash with wait := .error revertError }

/-- An error value carrying a JSON-RPC error object that has a code but no message. -/
def rpcErrorNoMessage : JsVal :=
  .object [("code", .string "UNKNOWN_ERROR"),
    ("info", .object [("error", .object [("code", .number (-32000))])])]

/-- External outcomes in which `safeTransferFrom` throws `error`. -/
def envTransferFails (error : JsVal) : Env :=
  { envOk "" with safeTransferFrom := fun _ _ _ => .error error }

/-- External outcomes in which the transfer is submitted with hash `txHash` but
`fs.writeFileSync` fails midway and leaves the file cut short. -/
def envWriteTruncates (txHash : String) : Env :=
  { envOk txHash with
    writeFile := .failed (.object [("message", .string "ENOSPC: no space left on device")])
      true }

/-- A ledger of three records: one used long ago, then `abc123` and `def456` unused. -/
def sampleLedger : List Gift :=
  [{ tokenId := 5, code := "old111", used := true, txHash := some "0xTX0", usedBy := some bob,
     usedAt := some "2023-12-31T00:00:00.000Z" },
   issued 6 "abc123", issued 7 "def456"]

/-- A used record whose code is the empty string. -/
def usedBlank : Gift :=
  { tokenId := 0, code := "", used := true, txHash := some "0xTX0", usedBy := some bob,
    usedAt := some "2023-12-31T00:00:00.000Z" }

/-! ## Lemmas on `findIndex` and `markUsed` -/

theorem findIndex_some {α : Type} (p : α → Bool) :
    ∀ (l : List α) (i : Nat), findIndex p l = some i →
      ∃ x, l[i]? = some x ∧ p x = true ∧ ∀ j y, j < i → l[j]? = some y → p y = false
  | [], i, h => by simp [findIndex] at h
  | x :: xs, i, h => by
    by_cases hx : p x = true
    · simp [findIndex, hx] at h
      subst h
      exact ⟨x, by simp, hx, fun j y hj _ => absurd hj (Nat.not_lt_zero j)⟩
    · simp only [findIndex, hx, Bool.false_eq_true, if_false, Option.map_eq_some'] at h
      obtain ⟨k, hk, rfl⟩ := h
      obtain ⟨y, hy, hpy, hbefore⟩ := findIndex_some p xs k hk
      refine ⟨y, by simpa using hy, hpy, ?_⟩
      intro j z hj hz
      cases j with
      | zero =>
        simp at hz
        subst hz
        simpa using hx
      | succ j =>
        simp at hz
        exact hbefore j z (by omega) hz

theorem findIndex_none {α : Type} (p : α → Bool) :
    ∀ (l : List α), findIndex p l = none ↔ ∀ x ∈ l, p x = false
  | [] => by simp [findIndex]
  | x :: xs => by
    by_cases hx : p x = true
    · simp [findIndex, hx]
    · have ih := findIndex_none p xs
      simp only [Bool.not_eq_true] at hx
      simp [findIndex, hx, ih]

theorem findIndex_of_first {α : Type} (p : α → Bool) :
    ∀ (l : List α) (i : Nat) (x : α), l[i]? = some x → p x = true →
      (∀ j y, j < i → l[j]? = some y → p y = false) → findIndex p l = some i
  | [], i, x, h, _, _ => by simp at h
  | y :: ys, 0, x, h, hp, _ => by
    simp at h
    subst h
    simp [findIndex, hp]
  | y :: ys, i + 1, x, h, hp, hbefore => by
    have hy : p y = false := hbefore 0 y (by omega) (by simp)
    have ih := findIndex_of_first p ys i x (by simpa using h) hp
      (fun j z hj hz => hbefore (j + 1) z (by omega) (by simpa using hz))
    simp [findIndex, hy, ih]

theorem findIndex_code_iff (gifts : List Gift) (code : String) (i : Nat) (g : Gift) :
    FirstWithCode gifts code i g ↔
      findIndex (fun r => r.code == code) gifts = some i ∧ gifts[i]? = some g := by
  constructor
  · rintro ⟨hg, hcode, hbefore⟩
    refine ⟨findIndex_of_first _ gifts i g hg (by simpa using hcode) ?_, hg⟩
    intro j r hj hr
    simpa using hbefore j r hj hr
  · rintro ⟨hidx, hg⟩
    obtain ⟨x, hx, hpx, hbefore⟩ := findIndex_some _ gifts i hidx
    rw [hg] at hx
    cases hx
    refine ⟨hg, by simpa using hpx, ?_⟩
    intro j r hj hr
    simpa using hbefore j r hj hr

theorem markUsed_length (gifts : List Gift) (i : Nat) (a h n : String) :
    (markUsed gifts i a h n).length = gifts.length := by
  simp [markUsed]

theorem markUsed_getElem?_eq (gifts : List Gift) (i : Nat) (a h n : String) (g : Gift)
    (hg : gifts[i]? = some g) :
    (markUsed gifts i a h n)[i]? =
      some { g with used := true, usedBy := some a, txHash := some h, usedAt := some n } := by
  simp [markUsed, hg]

theorem markUsed_getElem?_ne (gifts : List Gift) (i j : Nat) (a h n : String) (hj : j ≠ i) :
    (markUsed gifts i a h n)[j]? = gifts[j]? := by
  simp [markUsed, List.getElem?_modify_ne _ _ (Ne.symm hj)]

theorem markUsed_first (gifts : List Gift) (code : String) (i : Nat) (g : Gift)
    (a h n : String) (hfirst : FirstWithCode gifts code i g) :
    FirstWithCode (markUsed gifts i a h n) code i
      { g with used := true, usedBy := some a, txHash := some h, usedAt := some n } := by
  obtain ⟨hg, hcode, hbefore⟩ := hfirst
  refine ⟨markUsed_getElem?_eq gifts i a h n g hg, hcode, ?_⟩
  intro j r hj hr
  rw [markUsed_getElem?_ne gifts i j a h n (by omega)] at hr
  exact hbefore j r hj hr

theorem markUsed_getElem? (gifts : List Gift) (i j : Nat) (a h n : String) :
    (markUsed gifts i a h n)[j]? =
      (gifts[j]?).map fun r =>
        if i = j then
          { r with used := true, usedBy := some a, txHash := some h, usedAt := some n }
        else r := by
  simp [markUsed, List.getElem?_modify]

theorem firstWithCode_unique (gifts : List Gift) (code : String) (i j : Nat) (g r : Gift)
    (h1 : FirstWithCode gifts code i g) (h2 : FirstWithCode gifts code j r) :
    i = j ∧ g = r := by
  have e1 := ((findIndex_code_iff gifts code i g).1 h1).1
  have e2 := ((findIndex_code_iff gifts code j r).1 h2).1
  have hij : i = j := by
    rw [e1] at e2
    exact Option.some.inj e2
  subst hij
  have := h1.1
  rw [h2.1] at this
  exact ⟨rfl, (Option.some.inj this).symm⟩

/-! ## The shape of a run of the handler -/

theorem claim_found (isAddress : String → Bool) (env : Env) (file : FileState)
    (gifts : List Gift) (a c : String) (i : Nat) (g : Gift)
    (hvalid : ValidAddress isAddress a) (hc : c ≠ "") (hload : load file = some gifts)
    (hfirst : FirstWithCode gifts c i g) :
    claim isAddress env file ⟨some a, some c⟩ =
      if g.used then Outcome.reply file (some respAlreadyClaimed)
      else transferAndRecord env file gifts i g.tokenId a := by
  obtain ⟨hidx, hg⟩ := (findIndex_code_iff gifts c i g).1 hfirst
  obtain ⟨ha, hisa⟩ := hvalid
  simp [claim, ha, hisa, hc, hload, hidx, hg]

theorem claim_not_found (isAddress : String → Bool) (env : Env) (file : FileState)
    (gifts : List Gift) (a c : String)
    (hvalid : ValidAddress isAddress a) (hc : c ≠ "") (hload : load file = some gifts)
    (hnone : ∀ g ∈ gifts, g.code ≠ c) :
    claim isAddress env file ⟨some a, some c⟩ = Outcome.reply file (some respUnknownCode) := by
  have hidx : findIndex (fun r => r.code == c) gifts = none :=
    (findIndex_none _ gifts).2 (fun x hx => by simpa using hnone x hx)
  obtain ⟨ha, hisa⟩ := hvalid
  simp [claim, ha, hisa, hc, hload, hidx]

theorem claim_cases (isAddress : String → Bool) (env : Env) (file : FileState)
    (req : Request) :
    (∃ r, claim isAddress env file req = Outcome.reply file r ∧ isSuccess r = false) ∨
    ∃ gifts i g a c, req = ⟨some a, some c⟩ ∧ ValidAddress isAddress a ∧ c ≠ "" ∧
      load file = some gifts ∧ FirstWithCode gifts c i g ∧ g.used = false ∧
      claim isAddress env file req = transferAndRecord env file gifts i g.tokenId a := by
  obtain ⟨address, code⟩ := req
  cases address with
  | none => exact Or.inl ⟨_, rfl, rfl⟩
  | some a =>
    by_cases hvalid : ValidAddress isAddress a
    swap
    · refine Or.inl ⟨some respInvalidAddress, ?_, rfl⟩
      have : (a = "" || !isAddress a) = true := by
        simp only [ValidAddress, not_and, Bool.not_eq_true] at hvalid
        by_cases ha : a = ""
        · simp [ha]
        · simp [ha, hvalid ha]
      simp only [claim, this, if_true]
    cases code with
    | none =>
      refine Or.inl ⟨some respNoCode, ?_, rfl⟩
      simp [claim, hvalid.1, hvalid.2]
    | some c =>
      by_cases hc : c = ""
      · refine Or.inl ⟨some respNoCode, ?_, rfl⟩
        simp [claim, hvalid.1, hvalid.2, hc]
      cases hload : load file with
      | none =>
        refine Or.inl ⟨some respLoadFailed, ?_, rfl⟩
        simp [claim, hvalid.1, hvalid.2, hc, hload]
      | some gifts =>
        cases hidx : findIndex (fun r => r.code == c) gifts with
        | none =>
          refine Or.inl ⟨some respUnknownCode, ?_, rfl⟩
          simp [claim, hvalid.1, hvalid.2, hc, hload, hidx]
        | some i =>
          obtain ⟨g, hg, _, _⟩ := findIndex_some _ gifts i hidx
          have hfirst : FirstWithCode gifts c i g :=
            (findIndex_code_iff gifts c i g).2 ⟨hidx, hg⟩
          have hrun := claim_found isAddress env file gifts a c i g hvalid hc hload hfirst
          by_cases hused : g.used = true
          · refine Or.inl ⟨some respAlreadyClaimed, ?_, rfl⟩
            simpa [hused] using hrun
          · refine Or.inr ⟨gifts, i, g, a, c, rfl, hvalid, hc, rfl, hfirst, by simpa using hused,
              ?_⟩
            simpa [hused] using hrun

theorem catchResponse_status (e : JsVal) (r : Response) (h : catchResponse e = some r) :
    r.status = 500 ∧ ∃ msg, r.body = .error msg := by
  simp only [catchResponse, Option.map_eq_some'] at h
  obtain ⟨msg, _, rfl⟩ := h
  exact ⟨rfl, msg, rfl⟩

theorem catchResponse_ne_success (e : JsVal) (h : String) :
    catchResponse e ≠ some (respSuccess h) := by
  intro hc
  have := (catchResponse_status e _ hc).1
  simp [respSuccess] at this

theorem transferAndRecord_cases (env : Env) (file : FileState) (gifts : List Gift)
    (i tokenId : Nat) (a : String) :
    (∃ e, env.getAddress = .error e ∧
      transferAndRecord env file gifts i tokenId a =
        { response := catchResponse e, getAddress := some (.error e), transfer := none,
          write := none, wait := none, file := file }) ∨
    (∃ s e, env.getAddress = .ok s ∧ env.safeTransferFrom s a tokenId = .error e ∧
      transferAndRecord env file gifts i tokenId a =
        { response := catchResponse e, getAddress := some (.ok s),
          transfer := some (⟨s, a, tokenId⟩, .error e), write := none, wait := none,
          file := file }) ∨
    (∃ s h e t, env.getAddress = .ok s ∧ env.safeTransferFrom s a tokenId = .ok h ∧
      env.writeFile = .failed e t ∧
      transferAndRecord env file gifts i tokenId a =
        { response := catchResponse e, getAddress := some (.ok s),
          transfer := some (⟨s, a, tokenId⟩, .ok h),
          write := some (markUsed gifts i a h env.now, .failed e t), wait := none,
          file := if t then .corrupt else file }) ∨
    (∃ s h, env.getAddress = .ok s ∧ env.safeTransferFrom s a tokenId = .ok h ∧
      env.writeFile = .ok ∧
      transferAndRecord env file gifts i tokenId a =
        { response :=
            match env.wait with
            | .error e => catchResponse e
            | .ok _ => some (respSuccess h)
          getAddress := some (.ok s),
          transfer := some (⟨s, a, tokenId⟩, .ok h),
          write := some (markUsed gifts i a h env.now, .ok), wait := some env.wait,
          file := .content (markUsed gifts i a h env.now) }) := by
  cases hga : env.getAddress with
  | error e => exact Or.inl ⟨e, rfl, by simp [transferAndRecord, hga, Outcome.reply]⟩
  | ok s =>
    cases htr : env.safeTransferFrom s a tokenId with
    | error e =>
      exact Or.inr (Or.inl ⟨s, e, rfl, htr, by simp [transferAndRecord, hga, htr, Outcome.reply]⟩)
    | ok h =>
      cases hw : env.writeFile with
      | failed e t =>
        exact Or.inr (Or.inr (Or.inl ⟨s, h, e, t, rfl, htr, rfl,
          by simp [transferAndRecord, hga, htr, hw, fileAfterWrite]⟩))
      | ok =>
        exact Or.inr (Or.inr (Or.inr ⟨s, h, rfl, htr, rfl,
          by simp [transferAndRecord, hga, htr, hw]⟩))

theorem transferAndRecord_response_status (env : Env) (file : FileState) (gifts : List Gift)
    (i tokenId : Nat) (a : String) (r : Response)
    (h : (transferAndRecord env file gifts i tokenId a).response = some r) :
    r.status = 500 ∨ r.status = 200 := by
  rcases transferAndRecord_cases env file gifts i tokenId a with
    ⟨e, _, heq⟩ | ⟨s, e, _, _, heq⟩ | ⟨s, h2, e, t, _, _, _, heq⟩ | ⟨s, h2, _, _, _, heq⟩
  · rw [heq] at h; exact Or.inl (catchResponse_status e r h).1
  · rw [heq] at h; exact Or.inl (catchResponse_status e r h).1
  · rw [heq] at h; exact Or.inl (catchResponse_status e r h).1
  · rw [heq] at h
    cases hw : env.wait with
    | error e =>
      simp only [hw] at h
      exact Or.inl (catchResponse_status e r h).1
    | ok u =>
      simp only [hw, Option.some.injEq] at h
      subst h
      exact Or.inr rfl

theorem isSuccess_catchResponse (e : JsVal) : isSuccess (catchResponse e) = false := by
  cases h : catchResponse e with
  | none => rfl
  | some r =>
    obtain ⟨_, msg, hmsg⟩ := catchResponse_status e r h
    obtain ⟨status, body⟩ := r
    simp only at hmsg
    subst hmsg
    rfl

theorem markUsed_first_other (gifts : List Gift) (code : String) (i k : Nat) (g : Gift)
    (a h n : String) (hfirst : FirstWithCode gifts code k g) (hk : k ≠ i) :
    FirstWithCode (markUsed gifts i a h n) code k g := by
  obtain ⟨hg, hcode, hbefore⟩ := hfirst
  refine ⟨by rw [markUsed_getElem?_ne gifts i k a h n hk]; exact hg, hcode, ?_⟩
  intro j r hj hr
  rw [markUsed_getElem?] at hr
  simp only [Option.map_eq_some'] at hr
  obtain ⟨r0, hr0, rfl⟩ := hr
  have := hbefore j r0 hj hr0
  by_cases hij : i = j
  · simpa [hij] using this
  · simpa [hij] using this

theorem ledgerStep_refl (gifts : List Gift) : LedgerStep gifts gifts :=
  ⟨rfl, fun _ g hg => ⟨g, hg, rfl, rfl, fun _ => rfl⟩, Or.inl rfl⟩

theorem ledgerStep_markUsed (gifts : List Gift) (i : Nat) (g : Gift) (a h n : String)
    (hg : gifts[i]? = some g) (hunused : g.used = false) :
    LedgerStep gifts (markUsed gifts i a h n) := by
  refine ⟨markUsed_length gifts i a h n, ?_, Or.inr ⟨i, g, _, hg, hunused,
    markUsed_getElem?_eq gifts i a h n g hg, rfl,
    fun j hj => markUsed_getElem?_ne gifts i j a h n hj⟩⟩
  intro j r hr
  by_cases hij : j = i
  · subst hij
    rw [hg] at hr
    cases hr
    exact ⟨_, markUsed_getElem?_eq gifts j a h n g hg, rfl, rfl, fun hu => by simp [hunused] at hu⟩
  · exact ⟨r, by rw [markUsed_getElem?_ne gifts i j a h n hij]; exact hr, rfl, rfl, fun _ => rfl⟩

/-- A file from which `code` cannot be redeemed stays so under the handler, and a request
for `code` against it gets no success response. -/
theorem claim_spent (isAddress : String → Bool) (env : Env) (file : FileState)
    (req : Request) (code : String) (hs : Spent code file) :
    Spent code (claim isAddress env file req).file ∧
      (req.code = some code → isSuccess (claim isAddress env file req).response = false) := by
  rcases claim_cases isAddress env file req with
    ⟨r, heq, hr⟩ | ⟨gifts, i, g, a, c, hreq, hvalid, hc, hload, hfirst, hunused, heq⟩
  · rw [heq]
    exact ⟨hs, fun _ => hr⟩
  · rcases hs with hcor | ⟨gifts0, i0, g0, hfile, hfirst0, hused0⟩
    · subst hcor
      simp [load] at hload
    · subst hfile
      simp only [load, Option.some.injEq] at hload
      subst hload
      have hne : c ≠ code := by
        intro hcc
        subst hcc
        have := (firstWithCode_unique gifts0 c i i0 g g0 hfirst hfirst0).2
        subst this
        simp [hunused] at hused0
      have hi : i0 ≠ i := by
        intro hii
        subst hii
        have := hfirst.1
        rw [hfirst0.1] at this
        cases this
        simp [hunused] at hused0
      have hkeep : Spent code (.content gifts0) := Or.inr ⟨gifts0, i0, g0, rfl, hfirst0, hused0⟩
      refine ⟨?_, fun hcode => by subst hreq; simp at hcode; exact absurd hcode hne⟩
      rw [heq]
      rcases transferAndRecord_cases env (.content gifts0) gifts0 i g.tokenId a with
        ⟨e, _, h2⟩ | ⟨s, e, _, _, h2⟩ | ⟨s, h, e, t, _, _, _, h2⟩ | ⟨s, h, _, _, _, h2⟩
      · rw [h2]; exact hkeep
      · rw [h2]; exact hkeep
      · rw [h2]
        cases t
        · exact hkeep
        · exact Or.inl rfl
      · rw [h2]
        exact Or.inr ⟨_, i0, g0, rfl,
          markUsed_first_other gifts0 code i i0 g0 a h env.now hfirst0 hi, hused0⟩

/-- A success response for `code` leaves a file from which `code` cannot be redeemed. -/
theorem claim_success_spends (isAddress : String → Bool) (env : Env) (file : FileState)
    (req : Request) (code : String) (hcode : req.code = some code)
    (hsucc : isSuccess (claim isAddress env file req).response = true) :
    Spent code (claim isAddress env file req).file := by
  rcases claim_cases isAddress env file req with
    ⟨r, heq, hr⟩ | ⟨gifts, i, g, a, c, hreq, hvalid, hc, hload, hfirst, hunused, heq⟩
  · rw [heq] at hsucc
    simp [Outcome.reply, hr] at hsucc
  · subst hreq
    simp only [Option.some.injEq] at hcode
    subst hcode
    rw [heq] at hsucc ⊢
    rcases transferAndRecord_cases env file gifts i g.tokenId a with
      ⟨e, _, h2⟩ | ⟨s, e, _, _, h2⟩ | ⟨s, h, e, t, _, _, _, h2⟩ | ⟨s, h, _, _, _, h2⟩
    · rw [h2] at hsucc; simp [isSuccess_catchResponse] at hsucc
    · rw [h2] at hsucc; simp [isSuccess_catchResponse] at hsucc
    · rw [h2] at hsucc; simp [isSuccess_catchResponse] at hsucc
    · rw [h2]
      exact Or.inr ⟨_, i, _, rfl, markUsed_first gifts c i g a h env.now hfirst, rfl⟩

theorem serve_spent (isAddress : String → Bool) (code : String) :
    ∀ (requests : List (Env × Request)) (file : FileState), Spent code file →
      (serve isAddress file requests).filter (succeededFor code) = []
  | [], _, _ => rfl
  | (env, req) :: rest, file, hs => by
    obtain ⟨hnext, hresp⟩ := claim_spent isAddress env file req code hs
    have ih := serve_spent isAddress code rest _ hnext
    have hno : succeededFor code (req, claim isAddress env file req) = false := by
      by_cases hcode : req.code = some code
      · simp [succeededFor, hresp hcode]
      · simp [succeededFor, hcode]
    simp [serve, hno, ih]

theorem serveFile_spent (isAddress : String → Bool) (code : String) :
    ∀ (requests : List (Env × Request)) (file : FileState), Spent code file →
      Spent code (serveFile isAddress file requests)
  | [], _, hs => hs
  | (env, req) :: rest, file, hs =>
    serveFile_spent isAddress code rest _ (claim_spent isAddress env file req code hs).1

theorem claim_of_spent (isAddress : String → Bool) (env : Env) (file : FileState)
    (a c : String) (hvalid : ValidAddress isAddress a) (hc : c ≠ "")
    (hs : Spent c file) (hreadable : load file ≠ none) :
    claim isAddress env file ⟨some a, some c⟩ = Outcome.reply file (some respAlreadyClaimed) := by
  rcases hs with hcor | ⟨gifts, i, g, hfile, hfirst, hused⟩
  · subst hcor
    simp [load] at hreadable
  · subst hfile
    rw [claim_found isAddress env (.content gifts) gifts a c i g hvalid hc rfl hfirst]
    simp [hused]

/-- Run alone, the handler cut at its `await`s does what `claim` does: same file, same
response, same transfer submitted. -/
theorem run_alone_eq_claim (isAddress : String → Bool) (env : Env) (file : FileState)
    (req : Request) :
    (Server.run isAddress (Server.arrive file [(env, req)]) [0, 0, 0, 0]).file
      = (claim isAddress env file req).file ∧
    (Server.run isAddress (Server.arrive file [(env, req)]) [0, 0, 0, 0]).responses
      = [some (claim isAddress env file req).response] ∧
    (Server.run isAddress (Server.arrive file [(env, req)]) [0, 0, 0, 0]).transfers
      = match (claim isAddress env file req).transfer with
        | none => []
        | some (call, _) => [(0, call)] := by
  obtain ⟨address, code⟩ := req
  cases address with
  | none => exact ⟨rfl, rfl, rfl⟩
  | some a =>
    by_cases hbad : (a = "" || !isAddress a) = true
    · simp [Server.run, Server.arrive, Server.advance, Server.responses, step, claim,
        Outcome.reply, hbad]
    cases code with
    | none =>
      simp [Server.run, Server.arrive, Server.advance, Server.responses, step, claim,
        Outcome.reply, hbad]
    | some c =>
      by_cases hc : c = ""
      · simp [Server.run, Server.arrive, Server.advance, Server.responses, step, claim,
          Outcome.reply, hbad, hc]
      cases hload : load file with
      | none =>
        simp [Server.run, Server.arrive, Server.advance, Server.responses, step, claim,
          Outcome.reply, hbad, hc, hload]
      | some gifts =>
        cases hidx : findIndex (fun r => r.code == c) gifts with
        | none =>
          simp [Server.run, Server.arrive, Server.advance, Server.responses, step, claim,
            Outcome.reply, hbad, hc, hload, hidx]
        | some i =>
          cases hg : gifts[i]? with
          | none =>
            simp [Server.run, Server.arrive, Server.advance, Server.responses, step, claim,
              Outcome.reply, hbad, hc, hload, hidx, hg]
          | some g =>
            by_cases hused : g.used = true
            · simp [Server.run, Server.arrive, Server.advance, Server.responses, step, claim,
                Outcome.reply, hbad, hc, hload, hidx, hg, hused]
            cases hga : env.getAddress with
            | error e =>
              simp [Server.run, Server.arrive, Server.advance, Server.responses, step, claim,
                transferAndRecord, Outcome.reply, hbad, hc, hload, hidx, hg, hused, hga]
            | ok s =>
              cases htr : env.safeTransferFrom s a g.tokenId with
              | error e =>
                simp [Server.run, Server.arrive, Server.advance, Server.responses, step, claim,
                  transferAndRecord, Outcome.reply, hbad, hc, hload, hidx, hg, hused, hga, htr]
              | ok h =>
                cases hw : env.writeFile with
                | failed e t =>
                  simp [Server.run, Server.arrive, Server.advance, Server.responses, step,
                    claim, transferAndRecord, Outcome.reply, hbad, hc, hload, hidx, hg, hused,
                    hga, htr, hw]
                | ok =>
                  cases hwait : env.wait with
                  | error e =>
                    simp [Server.run, Server.arrive, Server.advance, Server.responses, step,
                      claim, transferAndRecord, Outcome.reply, hbad, hc, hload, hidx, hg,
                      hused, hga, htr, hw, hwait]
                  | ok u =>
                    simp [Server.run, Server.arrive, Server.advance, Server.responses, step,
                      claim, transferAndRecord, Outcome.reply, hbad, hc, hload, hidx, hg,
                      hused, hga, htr, hw, hwait]

/-- The fallback of the catch block on an error that carries only a message string without
the first pattern: HTTP 500 with the generic message. -/
theorem catchResponse_message_only (s : String)
    (hs : JsVal.includesChars s.data patNonexistentToken.data = false) :
    catchResponse (.object [("message", .string s)])
      = some ⟨500, .error msgTransferFailed⟩ := by
  by_cases h : s = ""
  · subst h
    rfl
  · simp [catchResponse, errorMessageOf, JsVal.prop, List.lookup, JsVal.truthy,
      JsVal.includes, h, hs]

theorem markUsed_eq_set (gifts : List Gift) (i : Nat) (g : Gift) (a h n : String)
    (hg : gifts[i]? = some g) :
    markUsed gifts i a h n = gifts.set i (claimedRecord g a h n) := by
  apply List.ext_getElem?
  intro j
  rw [markUsed_getElem?, List.getElem?_set]
  by_cases hij : i = j
  · subst hij
    have hlt : i < gifts.length := by
      by_contra hge
      rw [List.getElem?_eq_none (by omega)] at hg
      exact Option.noConfusion hg
    simp [hg, hlt, claimedRecord]
  · simp [hij]

/-! ## The claims -/

/-- C1, as stated, fails: with a valid address, the empty code, whose first record is unused,
and external calls that all succeed (the transfer client returns handle `0xTX1`, the write
succeeds, confirmation succeeds), the handler answers HTTP 400 `respNoCode` (line 46), submits
nothing and leaves the ledger as it was. -/
theorem claim_success_fails_for_empty_code :
    ValidAddress looksLikeAddress alice ∧
    FirstWithCode [issued 0 ""] "" 0 (issued 0 "") ∧ (issued 0 "").used = false ∧
    (envOk "0xTX1").getAddress = .ok custodian ∧
    (envOk "0xTX1").safeTransferFrom custodian alice (issued 0 "").tokenId = .ok "0xTX1" ∧
    (envOk "0xTX1").writeFile = .ok ∧
    (envOk "0xTX1").wait = .ok () ∧
    (claim looksLikeAddress (envOk "0xTX1") (.content [issued 0 ""])
      ⟨some alice, some ""⟩).response = some ⟨400, .error msgNoCode⟩ ∧
    (claim looksLikeAddress (envOk "0xTX1") (.content [issued 0 ""])
      ⟨some alice, some ""⟩).transfer = none ∧
    (claim looksLikeAddress (envOk "0xTX1") (.content [issued 0 ""])
      ⟨some alice, some ""⟩).file = .content [issued 0 ""] :=
  ⟨⟨by decide, by decide⟩, ⟨rfl, rfl, fun j _ hj _ => absurd hj (Nat.not_lt_zero j)⟩, rfl, rfl,
    rfl, rfl, rfl, rfl, rfl, rfl⟩

/-- C1, amended: for every ledger, valid address `a` and non-empty code `c` whose first
record `g` (at index `i`) is unused, if the transfer submission returns a handle `h` (the
custodial address `s` is obtained and `safeTransferFrom(s, a, g.tokenId)` returns `h`), the
ledger write succeeds and confirmation succeeds, then the handler submits exactly that
transfer, writes, waits and responds HTTP 200 success carrying `h`, and the ledger written and
persisted is the loaded one with the record at `i` replaced by `claimedRecord`: `used = true`,
`usedBy = a`, `txHash = h`, `usedAt` set, its `tokenId` and `code` kept, every other record and
the order and number of records unchanged. -/
theorem claim_success_postcondition (isAddress : String → Bool) (env : Env)
    (gifts : List Gift) (a c : String) (i : Nat) (g : Gift) (s h : String)
    (hvalid : ValidAddress isAddress a) (hc : c ≠ "")
    (hfirst : FirstWithCode gifts c i g) (hunused : g.used = false)
    (haddr : env.getAddress = .ok s)
    (htransfer : env.safeTransferFrom s a g.tokenId = .ok h)
    (hwrite : env.writeFile = .ok)
    (hwait : env.wait = .ok ()) :
    (claim isAddress env (.content gifts) ⟨some a, some c⟩).response
      = some ⟨200, .success h⟩ ∧
    (claim isAddress env (.content gifts) ⟨some a, some c⟩).getAddress = some (.ok s) ∧
    (claim isAddress env (.content gifts) ⟨some a, some c⟩).transfer
      = some (⟨s, a, g.tokenId⟩, .ok h) ∧
    (claim isAddress env (.content gifts) ⟨some a, some c⟩).write
      = some (gifts.set i (claimedRecord g a h env.now), .ok) ∧
    (claim isAddress env (.content gifts) ⟨some a, some c⟩).wait = some (.ok ()) ∧
    (claim isAddress env (.content gifts) ⟨some a, some c⟩).file
      = .content (gifts.set i (claimedRecord g a h env.now)) ∧
    (gifts.set i (claimedRecord g a h env.now)).length = gifts.length ∧
    (gifts.set i (claimedRecord g a h env.now))[i]? = some (claimedRecord g a h env.now) ∧
    ∀ j : Nat, j ≠ i → (gifts.set i (claimedRecord g a h env.now))[j]? = gifts[j]? := by
  have hlt : i < gifts.length := by
    by_contra hge
    have := hfirst.1
    rw [List.getElem?_eq_none (by omega)] at this
    exact Option.noConfusion this
  rw [claim_found isAddress env (.content gifts) gifts a c i g hvalid hc rfl hfirst]
  simp only [hunused, Bool.false_eq_true, if_false]
  rw [← markUsed_eq_set gifts i g a h env.now hfirst.1]
  refine ⟨?_, ?_, ?_, ?_, ?_, ?_, markUsed_length gifts i a h env.now, ?_, ?_⟩
  · simp [transferAndRecord, haddr, htransfer, hwrite, hwait, respSuccess]
  · simp [transferAndRecord, haddr, htransfer, hwrite]
  · simp [transferAndRecord, haddr, htransfer, hwrite]
  · simp [transferAndRecord, haddr, htransfer, hwrite]
  · simp [transferAndRecord, haddr, htransfer, hwrite, hwait]
  · simp [transferAndRecord, haddr, htransfer, hwrite]
  · rw [markUsed_eq_set gifts i g a h env.now hfirst.1]
    simp [List.getElem?_set, hlt]
  · intro j hj
    exact markUsed_getElem?_ne gifts i j a h env.now hj

/-- Witness of the amended C1: `abc123`, the middle record of a three-record ledger, is
claimed; the records before and after it are as they were. -/
theorem claim_success_postcondition_witness :
    ValidAddress looksLikeAddress alice ∧
    FirstWithCode sampleLedger "abc123" 1 (issued 6 "abc123") ∧
    (claim looksLikeAddress (envOk "0xTX1") (.content sampleLedger)
        ⟨some alice, some "abc123"⟩).response = some ⟨200, .success "0xTX1"⟩ ∧
    (claim looksLikeAddress (envOk "0xTX1") (.content sampleLedger)
        ⟨some alice, some "abc123"⟩).transfer = some (⟨custodian, alice, 6⟩, .ok "0xTX1") ∧
    (claim looksLikeAddress (envOk "0xTX1") (.content sampleLedger)
        ⟨some alice, some "abc123"⟩).file =
      .content
        [{ tokenId := 5, code := "old111", used := true, txHash := some "0xTX0",
           usedBy := some bob, usedAt := some "2023-12-31T00:00:00.000Z" },
         { tokenId := 6, code := "abc123", used := true, txHash := some "0xTX1",
           usedBy := some alice, usedAt := some "2024-01-01T00:00:00.000Z" },
         { tokenId := 7, code := "def456", used := false, txHash := none, usedBy := none,
           usedAt := none }] :=
  have hfirst : FirstWithCode sampleLedger "abc123" 1 (issued 6 "abc123") :=
    ⟨rfl, rfl, by
      intro j r hj hr
      have hj0 : j = 0 := by omega
      subst hj0
      cases hr
      decide⟩
  have h := claim_success_postcondition looksLikeAddress (envOk "0xTX1") sampleLedger alice
    "abc123" 1 (issued 6 "abc123") custodian "0xTX1" ⟨by decide, by decide⟩ (by decide)
    hfirst rfl rfl rfl rfl rfl
  ⟨⟨by decide, by decide⟩, hfirst, h.1, h.2.2.1, h.2.2.2.2.2.1⟩

/-- C3, as stated, fails: with a valid address and the empty code, whose first matching record
is used, the handler answers `respNoCode` (line 46), not `AlreadyClaimed`. -/
theorem already_claimed_fails_for_empty_code :
    ValidAddress looksLikeAddress alice ∧
    FirstWithCode [usedBlank] "" 0 usedBlank ∧ usedBlank.used = true ∧
    (claim looksLikeAddress (envOk "0xTX1") (.content [usedBlank])
      ⟨some alice, some ""⟩).response = some respNoCode ∧
    respNoCode ≠ respAlreadyClaimed :=
  ⟨⟨by decide, by decide⟩, ⟨rfl, rfl, fun j _ hj _ => absurd hj (Nat.not_lt_zero j)⟩, rfl, rfl,
    by decide⟩

/-- C3, amended: for every ledger, valid address and non-empty code `c` whose first matching
record has `used = true`, the handler responds with `AlreadyClaimed` (HTTP 400), makes no
external call (so submits no transfer) and performs no ledger write; hence a second claim
right after it with the same code yields `AlreadyClaimed` again, and the persisted ledger is
the same before, between and after. -/
theorem claim_already_claimed (isAddress : String → Bool) (env env2 : Env)
    (gifts : List Gift) (a a2 c : String) (i : Nat) (g : Gift)
    (hvalid : ValidAddress isAddress a) (hvalid2 : ValidAddress isAddress a2) (hc : c ≠ "")
    (hfirst : FirstWithCode gifts c i g) (hused : g.used = true) :
    (claim isAddress env (.content gifts) ⟨some a, some c⟩).response
      = some respAlreadyClaimed ∧
    (claim isAddress env (.content gifts) ⟨some a, some c⟩).getAddress = none ∧
    (claim isAddress env (.content gifts) ⟨some a, some c⟩).transfer = none ∧
    (claim isAddress env (.content gifts) ⟨some a, some c⟩).write = none ∧
    (claim isAddress env (.content gifts) ⟨some a, some c⟩).file = .content gifts ∧
    (serve isAddress (.content gifts)
        [(env, ⟨some a, some c⟩), (env2, ⟨some a2, some c⟩)]).map
      (fun entry => (entry.2.response, entry.2.file))
      = [(some respAlreadyClaimed, .content gifts), (some respAlreadyClaimed, .content gifts)] := by
  have h1 := claim_found isAddress env (.content gifts) gifts a c i g hvalid hc rfl hfirst
  have h2 := claim_found isAddress env2 (.content gifts) gifts a2 c i g hvalid2 hc rfl hfirst
  simp only [hused, if_true] at h1 h2
  simp [serve, h1, h2, Outcome.reply]

/-- Witness of the amended C3 on a ledger whose record `abc123` is used. -/
theorem claim_already_claimed_witness :
    (claim looksLikeAddress (envOk "0xTX1")
        (.content [{ usedBlank with code := "abc123" }]) ⟨some alice, some "abc123"⟩).response
      = some respAlreadyClaimed ∧
    (claim looksLikeAddress (envOk "0xTX1")
        (.content [{ usedBlank with code := "abc123" }]) ⟨some alice, some "abc123"⟩).file
      = .content [{ usedBlank with code := "abc123" }] :=
  have h := claim_already_claimed looksLikeAddress (envOk "0xTX1") (envOk "0xTX2")
    [{ usedBlank with code := "abc123" }] alice bob "abc123" 0 { usedBlank with code := "abc123" }
    ⟨by decide, by decide⟩ ⟨by decide, by decide⟩ (by decide)
    ⟨rfl, rfl, fun j _ hj _ => absurd hj (Nat.not_lt_zero j)⟩ rfl
  ⟨h.1, h.2.2.2.2.1⟩

/-- C4. Unknown code: for every successfully loaded ledger, valid address and non-empty code
`c`, the handler responds with `UnknownCode` (HTTP 404) if and only if no record of the ledger
has code `c`; in that case it makes no external call (no transfer is submitted) and the ledger
file is not written. -/
theorem claim_unknown_code_iff (isAddress : String → Bool) (env : Env) (file : FileState)
    (gifts : List Gift) (a c : String)
    (hvalid : ValidAddress isAddress a) (hc : c ≠ "") (hload : load file = some gifts) :
    ((claim isAddress env file ⟨some a, some c⟩).response = some respUnknownCode ↔
      ∀ g ∈ gifts, g.code ≠ c) ∧
    ((∀ g ∈ gifts, g.code ≠ c) →
      (claim isAddress env file ⟨some a, some c⟩).getAddress = none ∧
      (claim isAddress env file ⟨some a, some c⟩).transfer = none ∧
      (claim isAddress env file ⟨some a, some c⟩).write = none ∧
      (claim isAddress env file ⟨some a, some c⟩).file = file) := by
  refine ⟨⟨?_, ?_⟩, ?_⟩
  · intro hresp
    by_contra hex
    have hidx : findIndex (fun r => r.code == c) gifts ≠ none := by
      intro hn
      exact hex (fun x hx => by simpa using (findIndex_none _ gifts).1 hn x hx)
    obtain ⟨i, hi⟩ := Option.ne_none_iff_exists'.1 hidx
    obtain ⟨g, hg, _, _⟩ := findIndex_some _ gifts i hi
    have hfirst : FirstWithCode gifts c i g := (findIndex_code_iff gifts c i g).2 ⟨hi, hg⟩
    rw [claim_found isAddress env file gifts a c i g hvalid hc hload hfirst] at hresp
    by_cases hused : g.used = true
    · simp [hused, Outcome.reply, respAlreadyClaimed, respUnknownCode] at hresp
    · simp only [hused, Bool.false_eq_true, if_false] at hresp
      have := transferAndRecord_response_status env file gifts i g.tokenId a _ hresp
      simp [respUnknownCode] at this
  · intro hnone
    rw [claim_not_found isAddress env file gifts a c hvalid hc hload hnone]
    rfl
  · intro hnone
    rw [claim_not_found isAddress env file gifts a c hvalid hc hload hnone]
    exact ⟨rfl, rfl, rfl, rfl⟩

/-- Witness of C4: `wrongcode` against the ledger holding only `abc123`. -/
theorem claim_unknown_code_iff_witness :
    (claim looksLikeAddress (envOk "0xTX1") (.content [issued 0 "abc123"])
        ⟨some bob, some "wrongcode"⟩).response = some respUnknownCode ∧
    (claim looksLikeAddress (envOk "0xTX1") (.content [issued 0 "abc123"])
        ⟨some bob, some "wrongcode"⟩).file = .content [issued 0 "abc123"] :=
  have h := claim_unknown_code_iff looksLikeAddress (envOk "0xTX1")
    (.content [issued 0 "abc123"]) [issued 0 "abc123"] bob "wrongcode"
    ⟨by decide, by decide⟩ (by decide) rfl
  ⟨h.1.2 (by decide), (h.2 (by decide)).2.2.2⟩

/-- C5. Atomicity on transfer-submission failure: for every ledger, valid address and code of
an unused record, if obtaining the custodial address or the transfer submission fails with any
error `e`, the handler performs no ledger write, so the persisted ledger is the loaded one and
its record is still unused (its `usedBy` and `txHash` still unset if they were), and the
request does not get a success response. -/
theorem claim_transfer_failure_atomic (isAddress : String → Bool) (env : Env)
    (gifts : List Gift) (a c : String) (i : Nat) (g : Gift) (out : Outcome) (e : JsVal)
    (hvalid : ValidAddress isAddress a)
    (hfirst : FirstWithCode gifts c i g) (hunused : g.used = false)
    (hrun : claim isAddress env (.content gifts) ⟨some a, some c⟩ = out)
    (hfail : out.getAddress = some (.error e) ∨ ∃ call, out.transfer = some (call, .error e)) :
    out.write = none ∧ (∀ h, out.response ≠ some (respSuccess h)) ∧
    ∃ persisted r, out.file = .content persisted ∧ persisted = gifts ∧
      FirstWithCode persisted c i r ∧ r.used = false ∧
      (g.usedBy = none → r.usedBy = none) ∧ (g.txHash = none → r.txHash = none) := by
  have hfile : out.write = none ∧ (∀ h, out.response ≠ some (respSuccess h)) ∧
      out.file = .content gifts := by
    by_cases hc : c = ""
    · subst hc
      subst hrun
      simp [claim, hvalid.1, hvalid.2, Outcome.reply] at hfail
    · rw [claim_found isAddress env (.content gifts) gifts a c i g hvalid hc rfl hfirst] at hrun
      simp only [hunused, Bool.false_eq_true, if_false] at hrun
      rcases transferAndRecord_cases env (.content gifts) gifts i g.tokenId a with
        ⟨e2, _, heq⟩ | ⟨s, e2, _, _, heq⟩ | ⟨s, h2, e2, t, _, _, _, heq⟩ | ⟨s, h2, _, _, _, heq⟩
      · rw [heq] at hrun; subst hrun
        exact ⟨rfl, fun h => catchResponse_ne_success e2 h, rfl⟩
      · rw [heq] at hrun; subst hrun
        exact ⟨rfl, fun h => catchResponse_ne_success e2 h, rfl⟩
      · rw [heq] at hrun; subst hrun; simp at hfail
      · rw [heq] at hrun; subst hrun; simp at hfail
  exact ⟨hfile.1, hfile.2.1, gifts, g, hfile.2.2, rfl, hfirst, hunused, id, id⟩

/-- Witness of C5: the custodian does not hold token 0 and the submission is rejected. -/
theorem claim_transfer_failure_atomic_witness :
    (claim looksLikeAddress
        { envOk "0xTX1" with safeTransferFrom := fun _ _ _ => .error revertError }
        (.content [issued 0 "abc123"]) ⟨some alice, some "abc123"⟩).write = none ∧
    (claim looksLikeAddress
        { envOk "0xTX1" with safeTransferFrom := fun _ _ _ => .error revertError }
        (.content [issued 0 "abc123"]) ⟨some alice, some "abc123"⟩).file
      = .content [issued 0 "abc123"] :=
  have h := claim_transfer_failure_atomic looksLikeAddress
    { envOk "0xTX1" with safeTransferFrom := fun _ _ _ => .error revertError }
    [issued 0 "abc123"] alice "abc123" 0 (issued 0 "abc123") _ revertError
    ⟨by decide, by decide⟩ ⟨rfl, rfl, fun j _ hj _ => absurd hj (Nat.not_lt_zero j)⟩ rfl rfl
    (Or.inr ⟨⟨custodian, alice, 0⟩, rfl⟩)
  ⟨h.1, rfl⟩

/-- C2. Uniqueness: for every initial ledger file and every finite sequence of claim requests
handled one after another, with arbitrary outcomes of transfer submission, confirmation and
store write, for every code at most one request gets a success response carrying a transfer
handle for that code. -/
theorem claim_uniqueness (isAddress : String → Bool) (code : String) :
    ∀ (requests : List (Env × Request)) (file : FileState),
      ((serve isAddress file requests).filter (succeededFor code)).length ≤ 1
  | [], _ => by simp [serve]
  | (env, req) :: rest, file => by
    by_cases hsucc : succeededFor code (req, claim isAddress env file req) = true
    · have hparts := hsucc
      simp only [succeededFor, Bool.and_eq_true, beq_iff_eq] at hparts
      have hs := claim_success_spends isAddress env file req code hparts.1 hparts.2
      have hrest := serve_spent isAddress code rest _ hs
      simp [serve, hsucc, hrest]
    · have ih := claim_uniqueness isAddress code rest (claim isAddress env file req).file
      simp only [Bool.not_eq_true] at hsucc
      simpa [serve, hsucc] using ih

/-- C6. Ledger invariants: for every claim request with any outcome, the ledger the handler
writes, and the ledger in the file afterwards, has the records of the loaded ledger in the same
number and order with the same `tokenId` and `code`, every record that was used is untouched
(`used`, `usedBy`, `txHash`, `usedAt`), and the only change is at most one unused record moved
to used; without a write the file is untouched. -/
theorem claim_ledger_invariants (isAddress : String → Bool) (env : Env) (file : FileState)
    (req : Request) (gifts : List Gift) (hload : load file = some gifts) :
    (∀ persisted, (claim isAddress env file req).file = .content persisted →
      LedgerStep gifts persisted) ∧
    (∀ written result, (claim isAddress env file req).write = some (written, result) →
      LedgerStep gifts written) ∧
    ((claim isAddress env file req).write = none →
      (claim isAddress env file req).file = file) := by
  have hsame : ∀ persisted, file = .content persisted → LedgerStep gifts persisted := by
    intro persisted hp
    subst hp
    simp only [load, Option.some.injEq] at hload
    subst hload
    exact ledgerStep_refl _
  rcases claim_cases isAddress env file req with
    ⟨r, heq, _⟩ | ⟨gifts2, i, g, a, c, _, _, _, hload2, hfirst, hunused, heq⟩
  · rw [heq]
    exact ⟨hsame, fun _ _ hw => by simp [Outcome.reply] at hw, fun _ => rfl⟩
  · rw [hload] at hload2
    cases hload2
    have hstep := fun h n => ledgerStep_markUsed gifts i g a h n hfirst.1 hunused
    rw [heq]
    rcases transferAndRecord_cases env file gifts i g.tokenId a with
      ⟨e, _, h2⟩ | ⟨s, e, _, _, h2⟩ | ⟨s, h, e, t, _, _, _, h2⟩ | ⟨s, h, _, _, _, h2⟩
    · rw [h2]
      exact ⟨hsame, fun _ _ hw => by simp at hw, fun _ => rfl⟩
    · rw [h2]
      exact ⟨hsame, fun _ _ hw => by simp at hw, fun _ => rfl⟩
    · rw [h2]
      refine ⟨?_, ?_, fun hw => by simp at hw⟩
      · intro persisted hp
        cases t
        · exact hsame persisted (by simpa using hp)
        · simp at hp
      · intro written result hw
        simp only [Option.some.injEq, Prod.mk.injEq] at hw
        rw [← hw.1]
        exact hstep h env.now
    · rw [h2]
      refine ⟨?_, ?_, fun hw => by simp at hw⟩
      · intro persisted hp
        simp only [FileState.content.injEq] at hp
        rw [← hp]
        exact hstep h env.now
      · intro written result hw
        simp only [Option.some.injEq, Prod.mk.injEq] at hw
        rw [← hw.1]
        exact hstep h env.now

/-- Witness of C6: a confirmed claim of `abc123` on a two-record ledger. -/
theorem claim_ledger_invariants_witness :
    LedgerStep [usedBlank, issued 1 "abc123"]
      [usedBlank, { tokenId := 1, code := "abc123", used := true, txHash := some "0xTX1",
                    usedBy := some alice, usedAt := some "2024-01-01T00:00:00.000Z" }] :=
  (claim_ledger_invariants looksLikeAddress (envOk "0xTX1")
    (.content [usedBlank, issued 1 "abc123"]) ⟨some alice, some "abc123"⟩
    [usedBlank, issued 1 "abc123"] rfl).1 _ rfl

/-- C7 fails on the code. Two requests for the same unused code whose handlers interleave at
their `await`s both read the record as unused and both call `safeTransferFrom` for token 0;
the second request is not answered `AlreadyClaimed` (here its transaction is submitted and
later reverts, so it gets the generic HTTP 500), and its write replaces the first one. -/
theorem concurrent_claims_both_submit :
    (Server.run looksLikeAddress
        (Server.arrive (.content [issued 0 "abc123"])
          [(envOk "0xTX1", ⟨some alice, some "abc123"⟩),
           (envConfirmFails "0xTX2", ⟨some bob, some "abc123"⟩)])
        [0, 1, 0, 1, 0, 1, 0, 1]).transfers
      = [(0, ⟨custodian, alice, 0⟩), (1, ⟨custodian, bob, 0⟩)] ∧
    (Server.run looksLikeAddress
        (Server.arrive (.content [issued 0 "abc123"])
          [(envOk "0xTX1", ⟨some alice, some "abc123"⟩),
           (envConfirmFails "0xTX2", ⟨some bob, some "abc123"⟩)])
        [0, 1, 0, 1, 0, 1, 0, 1]).responses
      = [some (some (respSuccess "0xTX1")), some (some ⟨500, .error msgTransferFailed⟩)] ∧
    (Server.run looksLikeAddress
        (Server.arrive (.content [issued 0 "abc123"])
          [(envOk "0xTX1", ⟨some alice, some "abc123"⟩),
           (envConfirmFails "0xTX2", ⟨some bob, some "abc123"⟩)])
        [0, 1, 0, 1, 0, 1, 0, 1]).file
      = .content [{ tokenId := 0, code := "abc123", used := true, txHash := some "0xTX2",
                    usedBy := some bob, usedAt := some "2024-01-01T00:00:00.000Z" }] :=
  ⟨rfl, rfl, rfl⟩

/-- C8, as stated, fails: the transfer is submitted with handle `0xTX1` and the ledger write
succeeds, but `tx.wait()` throws, and the handler answers HTTP 500 instead of success. -/
theorem claim_response_depends_on_confirmation :
    (claim looksLikeAddress (envConfirmFails "0xTX1") (.content [issued 0 "abc123"])
        ⟨some alice, some "abc123"⟩).transfer
      = some (⟨custodian, alice, 0⟩, .ok "0xTX1") ∧
    (claim looksLikeAddress (envConfirmFails "0xTX1") (.content [issued 0 "abc123"])
        ⟨some alice, some "abc123"⟩).write
      = some ([{ tokenId := 0, code := "abc123", used := true, txHash := some "0xTX1",
                 usedBy := some alice, usedAt := some "2024-01-01T00:00:00.000Z" }], .ok) ∧
    (claim looksLikeAddress (envConfirmFails "0xTX1") (.content [issued 0 "abc123"])
        ⟨some alice, some "abc123"⟩).response
      = some ⟨500, .error msgTransferFailed⟩ ∧
    (⟨500, .error msgTransferFailed⟩ : Response) ≠ respSuccess "0xTX1" :=
  ⟨rfl, rfl, rfl, by decide⟩

/-- C8, amended: for every claim in which the transfer submission returns a handle `h` and
the ledger write succeeds, the handler waits for confirmation before it responds; when
confirmation succeeds it returns success with `h`, and when confirmation fails it returns no
success response (a response it sends is an HTTP 500 error). -/
theorem claim_response_after_write (isAddress : String → Bool) (env : Env) (file : FileState)
    (req : Request) (out : Outcome) (call : TransferCall) (h : String) (written : List Gift)
    (hrun : claim isAddress env file req = out)
    (htransfer : out.transfer = some (call, .ok h))
    (hwrite : out.write = some (written, .ok)) :
    out.wait = some env.wait ∧
    (out.wait = some (.ok ()) → out.response = some (respSuccess h)) ∧
    (∀ e, out.wait = some (.error e) →
      isSuccess out.response = false ∧
      ∀ r, out.response = some r → r.status = 500 ∧ ∃ msg, r.body = .error msg) := by
  subst hrun
  rcases claim_cases isAddress env file req with
    ⟨r, heq, _⟩ | ⟨gifts, i, g, a, c, _, _, _, _, _, _, heq⟩
  · rw [heq] at htransfer
    simp [Outcome.reply] at htransfer
  · rw [heq] at htransfer hwrite ⊢
    rcases transferAndRecord_cases env file gifts i g.tokenId a with
      ⟨e, _, h2⟩ | ⟨s, e, _, _, h2⟩ | ⟨s, h3, e, t, _, _, _, h2⟩ | ⟨s, h3, _, _, _, h2⟩
    · rw [h2] at htransfer; simp at htransfer
    · rw [h2] at htransfer; simp at htransfer
    · rw [h2] at hwrite; simp at hwrite
    · rw [h2] at htransfer ⊢
      simp only [Option.some.injEq, Prod.mk.injEq, Except.ok.injEq] at htransfer
      obtain ⟨_, rfl⟩ := htransfer
      refine ⟨rfl, ?_, ?_⟩
      · intro hw
        simp only [Option.some.injEq] at hw
        simp [hw]
      · intro e hw
        simp only [Option.some.injEq] at hw
        simp only [hw]
        exact ⟨isSuccess_catchResponse e, fun r hr => catchResponse_status e r hr⟩

/-- Witness of the amended C8: submission and write succeed and confirmation succeeds. -/
theorem claim_response_after_write_witness :
    (claim looksLikeAddress (envOk "0xTX1") (.content [issued 0 "abc123"])
        ⟨some alice, some "abc123"⟩).wait = some (.ok ()) ∧
    (claim looksLikeAddress (envOk "0xTX1") (.content [issued 0 "abc123"])
        ⟨some alice, some "abc123"⟩).response = some (respSuccess "0xTX1") :=
  have h := claim_response_after_write looksLikeAddress (envOk "0xTX1")
    (.content [issued 0 "abc123"]) ⟨some alice, some "abc123"⟩ _ ⟨custodian, alice, 0⟩ "0xTX1"
    (markUsed [issued 0 "abc123"] 0 alice "0xTX1" "2024-01-01T00:00:00.000Z") rfl rfl rfl
  ⟨h.1, h.2.1 rfl⟩

/-- C9 fails on the code. `safeTransferFrom` throws an error whose `message` is absent and
whose `info.error` is an object without `message`, so it matches neither pattern; the catch
block reads `error.info.error.message.includes`, which throws, and no response is sent. -/
theorem catch_block_throws_without_response :
    rpcErrorNoMessage.prop "message" = some .undefined ∧
    ((rpcErrorNoMessage.prop "info").bind fun info =>
      (info.prop "error").bind fun e => e.prop "message") = some .undefined ∧
    (claim looksLikeAddress (envTransferFails rpcErrorNoMessage)
        (.content [issued 0 "abc123"]) ⟨some alice, some "abc123"⟩).transfer
      = some (⟨custodian, alice, 0⟩, .error rpcErrorNoMessage) ∧
    errorMessageOf rpcErrorNoMessage = none ∧
    (claim looksLikeAddress (envTransferFails rpcErrorNoMessage)
        (.content [issued 0 "abc123"]) ⟨some alice, some "abc123"⟩).response = none :=
  ⟨rfl, rfl, rfl, rfl, rfl⟩

/-- C10, as stated, fails. In each scenario a claim of `abc123` by `alice` has its transfer
submitted with handle `0xTX1` and its write succeed, and then `tx.wait()` throws.
(1) A later claim with the same code whose address does not pass the input check is answered
`InvalidRequest`, not `AlreadyClaimed`. (2) After another request in between whose write fails
midway, the file is unreadable and a later claim with the same code is answered with the load
failure (HTTP 500). (3) When another request read the ledger before this claim wrote it and
writes its own copy afterwards, the record is unused again and a later claim with the same
code succeeds. -/
theorem later_claim_not_always_already_claimed :
    ((claim looksLikeAddress (envConfirmFails "0xTX1") (.content sampleLedger)
        ⟨some alice, some "abc123"⟩).transfer = some (⟨custodian, alice, 6⟩, .ok "0xTX1") ∧
     (claim looksLikeAddress (envConfirmFails "0xTX1") (.content sampleLedger)
        ⟨some alice, some "abc123"⟩).write
        = some (sampleLedger.set 1 (claimedRecord (issued 6 "abc123") alice "0xTX1"
            "2024-01-01T00:00:00.000Z"), .ok) ∧
     (claim looksLikeAddress (envConfirmFails "0xTX1") (.content sampleLedger)
        ⟨some alice, some "abc123"⟩).wait = some (.error revertError)) ∧
    (claim looksLikeAddress (envOk "0xTX2")
        (claim looksLikeAddress (envConfirmFails "0xTX1") (.content sampleLedger)
          ⟨some alice, some "abc123"⟩).file
        ⟨some "0x123", some "abc123"⟩).response = some ⟨400, .error msgInvalidAddress⟩ ∧
    (claim looksLikeAddress (envOk "0xTX3")
        (serveFile looksLikeAddress
          (claim looksLikeAddress (envConfirmFails "0xTX1") (.content sampleLedger)
            ⟨some alice, some "abc123"⟩).file
          [(envWriteTruncates "0xTX2", ⟨some bob, some "def456"⟩)])
        ⟨some bob, some "abc123"⟩).response = some ⟨500, .error msgLoadFailed⟩ ∧
    (Server.run looksLikeAddress
        (Server.arrive (.content sampleLedger)
          [(envConfirmFails "0xTX1", ⟨some alice, some "abc123"⟩),
           (envOk "0xTX2", ⟨some bob, some "def456"⟩),
           (envOk "0xTX3", ⟨some bob, some "abc123"⟩)])
        [1, 0, 0, 0, 0]).file
      = .content (sampleLedger.set 1 (claimedRecord (issued 6 "abc123") alice "0xTX1"
          "2024-01-01T00:00:00.000Z")) ∧
    (Server.run looksLikeAddress
        (Server.arrive (.content sampleLedger)
          [(envConfirmFails "0xTX1", ⟨some alice, some "abc123"⟩),
           (envOk "0xTX2", ⟨some bob, some "def456"⟩),
           (envOk "0xTX3", ⟨some bob, some "abc123"⟩)])
        [1, 0, 0, 0, 0, 1, 1, 1]).file
      = .content (sampleLedger.set 2 (claimedRecord (issued 7 "def456") bob "0xTX2"
          "2024-01-01T00:00:00.000Z")) ∧
    (Server.run looksLikeAddress
        (Server.arrive (.content sampleLedger)
          [(envConfirmFails "0xTX1", ⟨some alice, some "abc123"⟩),
           (envOk "0xTX2", ⟨some bob, some "def456"⟩),
           (envOk "0xTX3", ⟨some bob, some "abc123"⟩)])
        [1, 0, 0, 0, 0, 1, 1, 1, 2, 2, 2, 2]).responses
      = [some (some ⟨500, .error msgTransferFailed⟩), some (some ⟨200, .success "0xTX2"⟩),
         some (some ⟨200, .success "0xTX3"⟩)] :=
  ⟨⟨rfl, rfl, rfl⟩, rfl, rfl, rfl, rfl, rfl⟩

/-- C10, amended. Commit before confirmation, no rollback: for every claim in which the
transfer submission returns a handle `h` and the ledger write succeeds but waiting for
confirmation then fails, the handler sends no success response and leaves the ledger as
written: the record has `used = true`, `usedBy` the requested address and `txHash = h` (the
catch block undoes nothing). A later claim with the same code and a valid address is rejected
as `AlreadyClaimed`, without a transfer or a write, when it is handled right after this one,
and also after any further requests handled one after another as long as the ledger file is
still readable. -/
theorem claim_commit_without_rollback (isAddress : String → Bool) (env : Env)
    (file : FileState) (a c : String) (out : Outcome) (call : TransferCall) (h : String)
    (written : List Gift) (e : JsVal)
    (hrun : claim isAddress env file ⟨some a, some c⟩ = out)
    (htransfer : out.transfer = some (call, .ok h))
    (hwrite : out.write = some (written, .ok))
    (hwait : out.wait = some (.error e)) :
    isSuccess out.response = false ∧
    out.file = .content written ∧
    (∃ i r, FirstWithCode written c i r ∧
      r.used = true ∧ r.usedBy = some a ∧ r.txHash = some h) ∧
    (∀ env2 a2, ValidAddress isAddress a2 →
      (claim isAddress env2 out.file ⟨some a2, some c⟩).response
        = some ⟨400, .error msgAlreadyUsed⟩ ∧
      (claim isAddress env2 out.file ⟨some a2, some c⟩).transfer = none ∧
      (claim isAddress env2 out.file ⟨some a2, some c⟩).write = none ∧
      (claim isAddress env2 out.file ⟨some a2, some c⟩).file = out.file) ∧
    (∀ between env2 a2, ValidAddress isAddress a2 →
      load (serveFile isAddress out.file between) ≠ none →
      (claim isAddress env2 (serveFile isAddress out.file between) ⟨some a2, some c⟩).response
        = some ⟨400, .error msgAlreadyUsed⟩) := by
  subst hrun
  rcases claim_cases isAddress env file ⟨some a, some c⟩ with
    ⟨r, heq, _⟩ | ⟨gifts, i, g, a1, c1, hreq, _, hc, _, hfirst, _, heq⟩
  · rw [heq] at htransfer
    simp [Outcome.reply] at htransfer
  · simp only [Request.mk.injEq, Option.some.injEq] at hreq
    obtain ⟨rfl, rfl⟩ := hreq
    rw [heq] at htransfer hwrite hwait ⊢
    rcases transferAndRecord_cases env file gifts i g.tokenId a with
      ⟨e2, _, h2⟩ | ⟨s, e2, _, _, h2⟩ | ⟨s, h3, e2, t, _, _, _, h2⟩ | ⟨s, h3, _, _, _, h2⟩
    · rw [h2] at htransfer; simp at htransfer
    · rw [h2] at htransfer; simp at htransfer
    · rw [h2] at hwrite; simp at hwrite
    · rw [h2] at htransfer hwrite hwait ⊢
      simp only [Option.some.injEq, Prod.mk.injEq, Except.ok.injEq, and_true] at htransfer hwrite
      obtain ⟨_, rfl⟩ := htransfer
      subst hwrite
      simp only [Option.some.injEq] at hwait
      have hnew := markUsed_first gifts c i g a h3 env.now hfirst
      have hspent : Spent c (.content (markUsed gifts i a h3 env.now)) :=
        Or.inr ⟨_, i, _, rfl, hnew, rfl⟩
      refine ⟨?_, rfl, ⟨i, _, hnew, rfl, rfl, rfl⟩, ?_, ?_⟩
      · simp only [hwait]
        exact isSuccess_catchResponse e
      · intro env2 a2 hv2
        rw [claim_of_spent isAddress env2 _ a2 c hv2 hc hspent (by simp [load])]
        exact ⟨rfl, rfl, rfl, rfl⟩
      · intro between env2 a2 hv2 hreadable
        rw [claim_of_spent isAddress env2 _ a2 c hv2 hc
          (serveFile_spent isAddress c between _ hspent) hreadable]
        rfl

/-- Witness of the amended C10: confirmation of `0xTX1` fails; the record stays used, and a
second claim with the same code is rejected, right away and after a claim of `def456`. -/
theorem claim_commit_without_rollback_witness :
    (claim looksLikeAddress (envConfirmFails "0xTX1") (.content sampleLedger)
        ⟨some alice, some "abc123"⟩).file
      = .content
        [{ tokenId := 5, code := "old111", used := true, txHash := some "0xTX0",
           usedBy := some bob, usedAt := some "2023-12-31T00:00:00.000Z" },
         { tokenId := 6, code := "abc123", used := true, txHash := some "0xTX1",
           usedBy := some alice, usedAt := some "2024-01-01T00:00:00.000Z" },
         { tokenId := 7, code := "def456", used := false, txHash := none, usedBy := none,
           usedAt := none }] ∧
    (claim looksLikeAddress (envOk "0xTX2")
        (claim looksLikeAddress (envConfirmFails "0xTX1") (.content sampleLedger)
          ⟨some alice, some "abc123"⟩).file ⟨some bob, some "abc123"⟩).response
      = some ⟨400, .error msgAlreadyUsed⟩ ∧
    (claim looksLikeAddress (envOk "0xTX3")
        (serveFile looksLikeAddress
          (claim looksLikeAddress (envConfirmFails "0xTX1") (.content sampleLedger)
            ⟨some alice, some "abc123"⟩).file
          [(envOk "0xTX2", ⟨some bob, some "def456"⟩)])
        ⟨some bob, some "abc123"⟩).response
      = some ⟨400, .error msgAlreadyUsed⟩ :=
  have h := claim_commit_without_rollback looksLikeAddress (envConfirmFails "0xTX1")
    (.content sampleLedger) alice "abc123" _ ⟨custodian, alice, 6⟩ "0xTX1"
    (markUsed sampleLedger 1 alice "0xTX1" "2024-01-01T00:00:00.000Z") revertError
    rfl rfl rfl rfl
  ⟨h.2.1, (h.2.2.2.1 (envOk "0xTX2") bob ⟨by decide, by decide⟩).1,
    h.2.2.2.2 [(envOk "0xTX2", ⟨some bob, some "def456"⟩)] (envOk "0xTX3") bob
      ⟨by decide, by decide⟩ (by decide)⟩

end CryptCenter
